import Mathlib

/-
  Verification of the Recovery Orchestration Engine
  (src/incident-response/recovery/recovery_orchestrator.py).

  The Python module is shallowly embedded as executable Lean functions.
  External command execution (subprocess.run) is modelled by an oracle
  `env : String -> CmdOutcome` supplied to every function that runs
  commands; database writes and callbacks do not change the in-memory
  orchestrator state and are omitted.  Python datetime.now() is modelled
  by a Nat clock threaded through the state, ticking at each reading.
  Python dicts are modelled as association lists with insert-or-replace
  update, and object aliasing (a recovery instance stores a reference to
  the registry plan object, not a copy) is modelled by keeping the single
  plan copy in the registry keyed by system type, with instances holding
  the key.
-/

namespace RecoveryOrch

/-- Mirrors enum RecoveryStatus (recovery_orchestrator.py lines 27-32). -/
inductive RecoveryStatus where
  | pending
  | inProgress
  | completed
  | failed
  | skipped
deriving DecidableEq, Repr

/-- Mirrors enum RecoveryPhase (lines 34-39). -/
inductive RecoveryPhase where
  | assessment
  | containment
  | eradication
  | recovery
  | postIncident
deriving DecidableEq, Repr

/-- Mirrors enum SystemCriticality (lines 41-45). -/
inductive SystemCriticality where
  | critical
  | high
  | medium
  | low
deriving DecidableEq, Repr

/-- Mirrors enum RecoveryPriority (lines 47-51). -/
inductive RecoveryPriority where
  | immediate
  | high
  | normal
  | low
deriving DecidableEq, Repr

/-- The numeric value of a priority (IMMEDIATE = 1 ... LOW = 4). -/
def RecoveryPriority.value : RecoveryPriority → Nat
  | .immediate => 1
  | .high => 2
  | .normal => 3
  | .low => 4

/-- Mirrors dataclass RecoveryTask (lines 53-72).  Timestamps are Nat
clock readings; metadata is a string-keyed association list. -/
structure RecoveryTask where
  id : String
  name : String
  description : String
  phase : RecoveryPhase
  priority : RecoveryPriority
  estimatedDuration : Nat
  dependencies : List String
  commands : List String
  rollbackCommands : List String
  status : RecoveryStatus
  assignedTo : String
  createdAt : Nat
  startedAt : Option Nat
  completedAt : Option Nat
  logs : List String
  errorLogs : List String
  metadata : List (String × String)
deriving DecidableEq, Repr

/-- Mirrors dataclass SystemRecovery (lines 74-86). -/
structure SystemRecovery where
  id : String
  systemName : String
  criticality : SystemCriticality
  recoveryTasks : List RecoveryTask
  backupLocation : Option String
  restorationProcedures : List String
  validationChecks : List String
  contactInfo : List (String × String)
  createdAt : Nat
  updatedAt : Nat
deriving DecidableEq, Repr

/-- One entry of recovery["task_status"] (lines 477-482, 544-548). -/
structure TaskStatusEntry where
  status : RecoveryStatus
  startedAt : Option Nat
  completedAt : Option Nat
deriving DecidableEq, Repr

/-- The recovery-instance dict created in initiate_recovery (lines
462-472).  The Python instance stores a reference to the registry plan
object; here the instance stores the registry key `systemType` and the
single shared plan lives in the orchestrator state. -/
structure RecoveryInstance where
  id : String
  incidentId : String
  systemType : String
  status : RecoveryStatus
  startedAt : Option Nat
  completedAt : Option Nat
  taskStatus : List (String × TaskStatusEntry)
deriving DecidableEq, Repr

/-- The in-memory orchestrator state: self.recovery_plans,
self.active_recoveries (both dicts), plus the model clock. -/
structure OrchestratorState where
  recoveryPlans : List (String × SystemRecovery)
  activeRecoveries : List (String × RecoveryInstance)
  clock : Nat
deriving DecidableEq, Repr

/-- Outcome of one subprocess.run call in the model: a finished process
with exit code and captured output, a timeout, or a raised exception. -/
inductive CmdOutcome where
  | ran (returncode : Int) (stdout : String) (stderr : String)
  | timedOut
  | errored (msg : String)
deriving DecidableEq, Repr

/-- Python str.upper() on the ascii strings the engine handles
(String.toUpper from the library does not reduce in the kernel, so the
map over the character list is spelled out). -/
def strUpper (s : String) : String := String.mk (s.data.map Char.toUpper)

/-- Python dict lookup d.get(k). -/
def alookup {β : Type} (k : String) : List (String × β) → Option β
  | [] => none
  | (a, b) :: r => if a = k then some b else alookup k r

/-- Python dict update d[k] = v (replace in place, append if new). -/
def aupdate {β : Type} (k : String) (v : β) : List (String × β) → List (String × β)
  | [] => [(k, v)]
  | (a, b) :: r => if a = k then (k, v) :: r else (a, b) :: aupdate k v r

/-- Stable insertion into a sorted list: x goes before the first element
y with le x y.  Combined with `stableSort` this reproduces the result of
the stable Python list.sort. -/
def insertSorted {α : Type} (le : α → α → Bool) (x : α) : List α → List α
  | [] => [x]
  | y :: ys => if le x y then x :: y :: ys else y :: insertSorted le x ys

/-- Stable sort (same result as Python list.sort with key) . -/
def stableSort {α : Type} (le : α → α → Bool) : List α → List α
  | [] => []
  | x :: xs => insertSorted le x (stableSort le xs)

/-- Body of the loop in _run_task_commands (lines 577-607): execute one
forward command, append output/outcome to the task logs, report whether
the command succeeded. -/
def runOneCommand (env : String → CmdOutcome) (task : RecoveryTask) (command : String) :
    RecoveryTask × Bool :=
  match env command with
  | .ran rc out err =>
      let task := if out ≠ "" then { task with logs := task.logs ++ ["STDOUT: " ++ out] } else task
      let task := if err ≠ "" then
        { task with errorLogs := task.errorLogs ++ ["STDERR: " ++ err] } else task
      if rc ≠ 0 then
        ({ task with errorLogs :=
            task.errorLogs ++ ["Command failed with exit code " ++ toString rc] }, false)
      else
        ({ task with logs := task.logs ++ ["Command completed successfully"] }, true)
  | .timedOut =>
      ({ task with errorLogs := task.errorLogs ++ ["Command timed out: " ++ command] }, false)
  | .errored msg =>
      ({ task with errorLogs := task.errorLogs ++ ["Command execution error: " ++ msg] }, false)

/-- _run_task_commands (lines 573-609): runs every command of the list
(the Python loop has no break; a failure only clears all_successful),
returning the task with accumulated logs and the final all_successful. -/
def runTaskCommands (env : String → CmdOutcome) (task : RecoveryTask) :
    List String → RecoveryTask × Bool
  | [] => (task, true)
  | c :: cs =>
      let r1 := runOneCommand env task c
      let r2 := runTaskCommands env r1.1 cs
      (r2.1, r1.2 && r2.2)

/-- Body of the loop in _run_rollback_commands (lines 685-705).  A
TimeoutExpired falls into the generic exception handler there, hence the
generic error entry for a timeout. -/
def runOneRollback (env : String → CmdOutcome) (task : RecoveryTask) (command : String) :
    RecoveryTask × Bool :=
  match env command with
  | .ran rc _ _ =>
      if rc ≠ 0 then
        ({ task with errorLogs := task.errorLogs ++ ["Rollback command failed: " ++ command] },
          false)
      else
        ({ task with logs := task.logs ++ ["Rollback command completed: " ++ command] }, true)
  | .timedOut =>
      ({ task with errorLogs := task.errorLogs ++ ["Rollback command error: timeout"] }, false)
  | .errored msg =>
      ({ task with errorLogs := task.errorLogs ++ ["Rollback command error: " ++ msg] }, false)

/-- _run_rollback_commands (lines 681-707): every rollback command runs
(no break), all_successful collects the conjunction. -/
def runRollbackCommands (env : String → CmdOutcome) (task : RecoveryTask) :
    List String → RecoveryTask × Bool
  | [] => (task, true)
  | c :: cs =>
      let r1 := runOneRollback env task c
      let r2 := runRollbackCommands env r1.1 cs
      (r2.1, r1.2 && r2.2)

/-- _get_next_phase (lines 634-651): the fixed phase order. -/
def getNextPhase : RecoveryPhase → Option RecoveryPhase
  | .assessment => some .containment
  | .containment => some .eradication
  | .eradication => some .recovery
  | .recovery => some .postIncident
  | .postIncident => none

/-- _check_dependencies (lines 519-525): every dependency id must be in
the instance task-status map with status COMPLETED. -/
def checkDependencies (task : RecoveryTask) (inst : RecoveryInstance) : Bool :=
  task.dependencies.all fun depId =>
    match alookup depId inst.taskStatus with
    | some e => decide (e.status = RecoveryStatus.completed)
    | none => false

/-- The test recovery["task_status"].get(id, {}).get("status") ==
RecoveryStatus.COMPLETED used at lines 621, 665, 746. -/
def mapStatusIsCompleted (inst : RecoveryInstance) (taskId : String) : Bool :=
  match alookup taskId inst.taskStatus with
  | some e => decide (e.status = RecoveryStatus.completed)
  | none => false

/-- The task stored at an index of the plan task list. -/
def taskAt (plan : SystemRecovery) (i : Nat) : Option RecoveryTask :=
  plan.recoveryTasks.get? i

/-- Priority value of the task at an index (indices are always in range
where this is used). -/
def priorityAt (plan : SystemRecovery) (i : Nat) : Nat :=
  match taskAt plan i with
  | some t => t.priority.value
  | none => 0

/-- The member tasks of a phase, as indices into plan.recoveryTasks, in
the order the loop of _execute_recovery_phase visits them: filtered by
phase (line 505), then stably sorted by priority value (line 508). -/
def phaseTaskIdxs (plan : SystemRecovery) (phase : RecoveryPhase) : List Nat :=
  stableSort (fun i j => decide (priorityAt plan i ≤ priorityAt plan j))
    ((List.range plan.recoveryTasks.length).filter fun i =>
      match taskAt plan i with
      | some t => decide (t.phase = phase)
      | none => false)

/-- Write back a mutated task object: the Python code mutates the task
in place inside the (shared) plan object, which the registry holds. -/
def setPlanTask (s : OrchestratorState) (systemType : String) (plan : SystemRecovery)
    (i : Nat) (task : RecoveryTask) : OrchestratorState :=
  let plan2 := { plan with recoveryTasks := plan.recoveryTasks.set i task }
  { s with recoveryPlans := aupdate systemType plan2 s.recoveryPlans }

/-- _execute_recovery_task (lines 527-571) without its trailing call to
_check_phase_completion (the loop functions below perform that call):
mark the task IN_PROGRESS with a start time, run its forward commands,
then either mark it COMPLETED and record the completion in the instance
task-status map, or mark it FAILED (the map is not touched in the
failure branch, exactly as in the source). -/
def executeRecoveryTaskCore (env : String → CmdOutcome) (s : OrchestratorState)
    (recoveryId : String) (i : Nat) : OrchestratorState :=
  match alookup recoveryId s.activeRecoveries with
  | none => s
  | some inst =>
    match alookup inst.systemType s.recoveryPlans with
    | none => s
    | some plan =>
      match taskAt plan i with
      | none => s
      | some task =>
        let task1 := { task with status := RecoveryStatus.inProgress,
                                 startedAt := some s.clock }
        let res := runTaskCommands env task1 task1.commands
        if res.2 then
          let task2 := { res.1 with status := RecoveryStatus.completed,
                                    completedAt := some (s.clock + 1) }
          let entry : TaskStatusEntry :=
            ⟨RecoveryStatus.completed, task2.startedAt, task2.completedAt⟩
          let inst2 := { inst with taskStatus := aupdate task2.id entry inst.taskStatus }
          let plan2 := { plan with recoveryTasks := plan.recoveryTasks.set i task2 }
          { s with
            recoveryPlans := aupdate inst.systemType plan2 s.recoveryPlans,
            activeRecoveries := aupdate recoveryId inst2 s.activeRecoveries,
            clock := s.clock + 2 }
        else
          let task2 := { res.1 with status := RecoveryStatus.failed,
                                    completedAt := some (s.clock + 1) }
          let plan2 := { plan with recoveryTasks := plan.recoveryTasks.set i task2 }
          { s with
            recoveryPlans := aupdate inst.systemType plan2 s.recoveryPlans,
            clock := s.clock + 2 }

/-- recovery["status"] = COMPLETED; recovery["completed_at"] =
datetime.now() (lines 629-631). -/
def finalizeRecovery (s : OrchestratorState) (recoveryId : String)
    (inst : RecoveryInstance) : OrchestratorState :=
  { s with
    activeRecoveries :=
      aupdate recoveryId
        { inst with status := RecoveryStatus.completed, completedAt := some s.clock }
        s.activeRecoveries,
    clock := s.clock + 1 }

/-- _check_phase_completion (lines 611-632), parametrized by what to run
for the next phase (`none` when _get_next_phase returns None): the phase
counts as complete exactly when the number of its tasks whose map status
is COMPLETED equals the number of its tasks. -/
def checkPhaseWith (nextExec : Option (OrchestratorState → OrchestratorState))
    (s : OrchestratorState) (recoveryId : String) (phase : RecoveryPhase) :
    OrchestratorState :=
  match alookup recoveryId s.activeRecoveries with
  | none => s
  | some inst =>
    match alookup inst.systemType s.recoveryPlans with
    | none => s
    | some plan =>
      let phaseTasks := plan.recoveryTasks.filter fun t => decide (t.phase = phase)
      let completedTasks := phaseTasks.filter fun t => mapStatusIsCompleted inst t.id
      if completedTasks.length = phaseTasks.length then
        match nextExec with
        | some f => f s
        | none => finalizeRecovery s recoveryId inst
      else s

/-- The for-loop of _execute_recovery_phase (lines 510-517): for each
member task, skip it when its dependencies are unmet (line 513, no
execution and no phase-completion check), otherwise execute it and then
run _check_phase_completion for the current phase (line 571, modelled by
the `check` parameter). -/
def runPhaseTasksWith (env : String → CmdOutcome)
    (check : OrchestratorState → OrchestratorState) (recoveryId : String) :
    OrchestratorState → List Nat → OrchestratorState
  | s, [] => s
  | s, i :: rest =>
    match alookup recoveryId s.activeRecoveries with
    | none => runPhaseTasksWith env check recoveryId s rest
    | some inst =>
      match alookup inst.systemType s.recoveryPlans with
      | none => runPhaseTasksWith env check recoveryId s rest
      | some plan =>
        match taskAt plan i with
        | none => runPhaseTasksWith env check recoveryId s rest
        | some task =>
          if checkDependencies task inst then
            runPhaseTasksWith env check recoveryId
              (check (executeRecoveryTaskCore env s recoveryId i)) rest
          else
            runPhaseTasksWith env check recoveryId
              (setPlanTask s inst.systemType plan i
                { task with status := RecoveryStatus.skipped }) rest

/-- _execute_recovery_phase (lines 499-517), parametrized by the
phase-completion continuation. -/
def executePhaseWith (env : String → CmdOutcome)
    (check : OrchestratorState → OrchestratorState) (s : OrchestratorState)
    (recoveryId : String) (phase : RecoveryPhase) : OrchestratorState :=
  match alookup recoveryId s.activeRecoveries with
  | none => s
  | some inst =>
    match alookup inst.systemType s.recoveryPlans with
    | none => s
    | some plan =>
      runPhaseTasksWith env check recoveryId s (phaseTaskIdxs plan phase)

/-
  The recursion _execute_recovery_phase -> _execute_recovery_task ->
  _check_phase_completion -> _execute_recovery_phase(next phase) only
  ever moves forward through the five fixed phases, so it is unrolled
  here into one pair of functions per phase, defined from the last phase
  backwards.  The generic dispatchers executeRecoveryPhase and
  checkPhaseCompletion below recover the Python functions.
-/

/-- _check_phase_completion at POST_INCIDENT (next phase: none). -/
def checkPostIncident (s : OrchestratorState) (recoveryId : String) : OrchestratorState :=
  checkPhaseWith none s recoveryId RecoveryPhase.postIncident

/-- _execute_recovery_phase at POST_INCIDENT. -/
def execPostIncident (env : String → CmdOutcome) (s : OrchestratorState)
    (recoveryId : String) : OrchestratorState :=
  executePhaseWith env (fun s2 => checkPostIncident s2 recoveryId) s recoveryId
    RecoveryPhase.postIncident

/-- _check_phase_completion at RECOVERY (next phase: POST_INCIDENT). -/
def checkRecoveryP (env : String → CmdOutcome) (s : OrchestratorState)
    (recoveryId : String) : OrchestratorState :=
  checkPhaseWith (some fun s2 => execPostIncident env s2 recoveryId) s recoveryId
    RecoveryPhase.recovery

/-- _execute_recovery_phase at RECOVERY. -/
def execRecoveryP (env : String → CmdOutcome) (s : OrchestratorState)
    (recoveryId : String) : OrchestratorState :=
  executePhaseWith env (fun s2 => checkRecoveryP env s2 recoveryId) s recoveryId
    RecoveryPhase.recovery

/-- _check_phase_completion at ERADICATION (next phase: RECOVERY). -/
def checkEradication (env : String → CmdOutcome) (s : OrchestratorState)
    (recoveryId : String) : OrchestratorState :=
  checkPhaseWith (some fun s2 => execRecoveryP env s2 recoveryId) s recoveryId
    RecoveryPhase.eradication

/-- _execute_recovery_phase at ERADICATION. -/
def execEradication (env : String → CmdOutcome) (s : OrchestratorState)
    (recoveryId : String) : OrchestratorState :=
  executePhaseWith env (fun s2 => checkEradication env s2 recoveryId) s recoveryId
    RecoveryPhase.eradication

/-- _check_phase_completion at CONTAINMENT (next phase: ERADICATION). -/
def checkContainment (env : String → CmdOutcome) (s : OrchestratorState)
    (recoveryId : String) : OrchestratorState :=
  checkPhaseWith (some fun s2 => execEradication env s2 recoveryId) s recoveryId
    RecoveryPhase.containment

/-- _execute_recovery_phase at CONTAINMENT. -/
def execContainment (env : String → CmdOutcome) (s : OrchestratorState)
    (recoveryId : String) : OrchestratorState :=
  executePhaseWith env (fun s2 => checkContainment env s2 recoveryId) s recoveryId
    RecoveryPhase.containment

/-- _check_phase_completion at ASSESSMENT (next phase: CONTAINMENT). -/
def checkAssessment (env : String → CmdOutcome) (s : OrchestratorState)
    (recoveryId : String) : OrchestratorState :=
  checkPhaseWith (some fun s2 => execContainment env s2 recoveryId) s recoveryId
    RecoveryPhase.assessment

/-- _execute_recovery_phase at ASSESSMENT. -/
def execAssessment (env : String → CmdOutcome) (s : OrchestratorState)
    (recoveryId : String) : OrchestratorState :=
  executePhaseWith env (fun s2 => checkAssessment env s2 recoveryId) s recoveryId
    RecoveryPhase.assessment

/-- _execute_recovery_phase (lines 499-517), generic in the phase. -/
def executeRecoveryPhase (env : String → CmdOutcome) (s : OrchestratorState)
    (recoveryId : String) : RecoveryPhase → OrchestratorState
  | .assessment => execAssessment env s recoveryId
  | .containment => execContainment env s recoveryId
  | .eradication => execEradication env s recoveryId
  | .recovery => execRecoveryP env s recoveryId
  | .postIncident => execPostIncident env s recoveryId

/-- _check_phase_completion (lines 611-632), generic in the phase. -/
def checkPhaseCompletion (env : String → CmdOutcome) (s : OrchestratorState)
    (recoveryId : String) : RecoveryPhase → OrchestratorState
  | .assessment => checkAssessment env s recoveryId
  | .containment => checkContainment env s recoveryId
  | .eradication => checkEradication env s recoveryId
  | .recovery => checkRecoveryP env s recoveryId
  | .postIncident => checkPostIncident s recoveryId

/-- _start_recovery_sequence (lines 490-497): mark the instance
IN_PROGRESS, record the start time, begin at ASSESSMENT. -/
def startRecoverySequence (env : String → CmdOutcome) (s : OrchestratorState)
    (recoveryId : String) : OrchestratorState :=
  match alookup recoveryId s.activeRecoveries with
  | none => s
  | some inst =>
    let inst2 := { inst with status := RecoveryStatus.inProgress,
                             startedAt := some s.clock }
    let s2 := { s with
      activeRecoveries := aupdate recoveryId inst2 s.activeRecoveries,
      clock := s.clock + 1 }
    executeRecoveryPhase env s2 recoveryId RecoveryPhase.assessment

/-- Initial task-status map of a new instance (lines 477-482): every
task of the plan maps to a PENDING entry with empty timestamps. -/
def initTaskStatus (tasks : List RecoveryTask) : List (String × TaskStatusEntry) :=
  tasks.foldl (fun m t => aupdate t.id ⟨RecoveryStatus.pending, none, none⟩ m) []

/-- initiate_recovery (lines 454-488).  An unknown system type raises
ValueError (modelled as Except.error); otherwise a recovery id is built
from incident id, upper-cased system type and the current time, the
instance is registered with every task PENDING in its task-status map,
and the recovery sequence runs (the Python call chain is synchronous).
The instance stores the registry key, not a copy of the plan: the plan
object, including its task objects, is shared. -/
def initiateRecovery (env : String → CmdOutcome) (s : OrchestratorState)
    (incidentId : String) (systemType : String) :
    Except String (String × OrchestratorState) :=
  match alookup systemType s.recoveryPlans with
  | none => Except.error ("Unknown system type: " ++ systemType)
  | some plan =>
    let recoveryId :=
      "RECOVERY-" ++ incidentId ++ "-" ++ strUpper systemType ++ "-" ++ toString s.clock
    let inst : RecoveryInstance :=
      { id := recoveryId, incidentId := incidentId, systemType := systemType,
        status := RecoveryStatus.pending, startedAt := none, completedAt := none,
        taskStatus := initTaskStatus plan.recoveryTasks }
    let s2 := { s with activeRecoveries := aupdate recoveryId inst s.activeRecoveries }
    Except.ok (recoveryId, startRecoverySequence env s2 recoveryId)

/-- The indices of the plan tasks whose status in the instance map is
COMPLETED (line 664-665), in plan order. -/
def completedTaskIdxs (plan : SystemRecovery) (inst : RecoveryInstance) : List Nat :=
  (List.range plan.recoveryTasks.length).filter fun i =>
    match taskAt plan i with
    | some t => mapStatusIsCompleted inst t.id
    | none => false

/-- created_at of the task at an index. -/
def createdAtAt (plan : SystemRecovery) (i : Nat) : Nat :=
  match taskAt plan i with
  | some t => t.createdAt
  | none => 0

/-- completed_tasks.sort(key=lambda t: t.created_at, reverse=True)
(line 666): stable descending sort by creation time. -/
def rollbackOrder (plan : SystemRecovery) (inst : RecoveryInstance) : List Nat :=
  stableSort (fun i j => decide (createdAtAt plan j ≤ createdAtAt plan i))
    (completedTaskIdxs plan inst)

/-- The for-loop of rollback_recovery (lines 668-678): tasks with an
empty rollback command list are skipped entirely; otherwise the rollback
commands run, and only on full success is the task status reset to
PENDING.  A failure clears the accumulator but the loop continues. -/
def rollbackLoop (env : String → CmdOutcome) (systemType : String) :
    OrchestratorState → List Nat → Bool → Bool × OrchestratorState
  | s, [], acc => (acc, s)
  | s, i :: rest, acc =>
    match alookup systemType s.recoveryPlans with
    | none => rollbackLoop env systemType s rest acc
    | some plan =>
      match taskAt plan i with
      | none => rollbackLoop env systemType s rest acc
      | some task =>
        if task.rollbackCommands.isEmpty then
          rollbackLoop env systemType s rest acc
        else
          let res := runRollbackCommands env task task.rollbackCommands
          let task2 :=
            if res.2 then { res.1 with status := RecoveryStatus.pending } else res.1
          rollbackLoop env systemType (setPlanTask s systemType plan i task2) rest
            (acc && res.2)

/-- rollback_recovery (lines 653-679): unknown recovery ids return False
with no state change; otherwise the COMPLETED tasks are rolled back in
stable reverse creation order and the conjunction of the attempted
results is returned. -/
def rollbackRecovery (env : String → CmdOutcome) (s : OrchestratorState)
    (recoveryId : String) : Bool × OrchestratorState :=
  match alookup recoveryId s.activeRecoveries with
  | none => (false, s)
  | some inst =>
    match alookup inst.systemType s.recoveryPlans with
    | none => (false, s)
    | some plan =>
      rollbackLoop env inst.systemType s (rollbackOrder plan inst) true

/-- One element of the task_details list of get_recovery_status (lines
763-774). -/
structure TaskDetail where
  id : String
  name : String
  phase : RecoveryPhase
  status : RecoveryStatus
  assignedTo : String
  logsCount : Nat
  errorLogsCount : Nat
deriving DecidableEq, Repr

/-- The snapshot returned by get_recovery_status (lines 752-775).  The
float progress percentage is modelled exactly as a rational. -/
structure RecoverySnapshot where
  recoveryId : String
  incidentId : String
  systemType : String
  status : RecoveryStatus
  progressPercentage : Rat
  totalTasks : Nat
  completedTasks : Nat
  failedTasks : Nat
  startedAt : Option Nat
  completedAt : Option Nat
  taskDetails : List TaskDetail
deriving DecidableEq, Repr

/-- get_recovery_status (lines 735-775).  completed_tasks and
failed_tasks count the plan tasks whose status in the instance map is
COMPLETED resp. FAILED; task detail statuses default to PENDING for
missing map entries; log counts are read from the shared task objects. -/
def getRecoveryStatus (s : OrchestratorState) (recoveryId : String) :
    Option RecoverySnapshot :=
  match alookup recoveryId s.activeRecoveries with
  | none => none
  | some inst =>
    match alookup inst.systemType s.recoveryPlans with
    | none => none
    | some plan =>
      let totalTasks := plan.recoveryTasks.length
      let completedTasks :=
        (plan.recoveryTasks.filter fun t => mapStatusIsCompleted inst t.id).length
      let failedTasks :=
        (plan.recoveryTasks.filter fun t =>
          match alookup t.id inst.taskStatus with
          | some e => decide (e.status = RecoveryStatus.failed)
          | none => false).length
      let progress : Rat :=
        if totalTasks > 0 then (completedTasks : Rat) / (totalTasks : Rat) * 100 else 0
      some
        { recoveryId := recoveryId
          incidentId := inst.incidentId
          systemType := inst.systemType
          status := inst.status
          progressPercentage := progress
          totalTasks := totalTasks
          completedTasks := completedTasks
          failedTasks := failedTasks
          startedAt := inst.startedAt
          completedAt := inst.completedAt
          taskDetails := plan.recoveryTasks.map fun t =>
            { id := t.id
              name := t.name
              phase := t.phase
              status := ((alookup t.id inst.taskStatus).map
                TaskStatusEntry.status).getD RecoveryStatus.pending
              assignedTo := t.assignedTo
              logsCount := t.logs.length
              errorLogsCount := t.errorLogs.length } }

/-! ### Observation helpers used to state properties about runs -/

/-- The task object with a given id inside the registry plan of a system
type (the single object every instance of that type aliases). -/
def planTask (s : OrchestratorState) (systemType taskId : String) : Option RecoveryTask :=
  match alookup systemType s.recoveryPlans with
  | none => none
  | some plan => plan.recoveryTasks.find? fun t => t.id == taskId

/-- Status field of a shared task object. -/
def planTaskStatus (s : OrchestratorState) (systemType taskId : String) :
    Option RecoveryStatus :=
  (planTask s systemType taskId).map RecoveryTask.status

/-- started_at field of a shared task object. -/
def planTaskStartedAt (s : OrchestratorState) (systemType taskId : String) :
    Option (Option Nat) :=
  (planTask s systemType taskId).map RecoveryTask.startedAt

/-- logs field of a shared task object. -/
def planTaskLogs (s : OrchestratorState) (systemType taskId : String) :
    Option (List String) :=
  (planTask s systemType taskId).map RecoveryTask.logs

/-- error_logs field of a shared task object. -/
def planTaskErrorLogs (s : OrchestratorState) (systemType taskId : String) :
    Option (List String) :=
  (planTask s systemType taskId).map RecoveryTask.errorLogs

/-- metadata field of a shared task object. -/
def planTaskMetadata (s : OrchestratorState) (systemType taskId : String) :
    Option (List (String × String)) :=
  (planTask s systemType taskId).map RecoveryTask.metadata

/-- Overall status of a registered recovery instance. -/
def instStatus (s : OrchestratorState) (recoveryId : String) : Option RecoveryStatus :=
  (alookup recoveryId s.activeRecoveries).map RecoveryInstance.status

/-- completed_at of a registered recovery instance. -/
def instCompletedAt (s : OrchestratorState) (recoveryId : String) : Option (Option Nat) :=
  (alookup recoveryId s.activeRecoveries).map RecoveryInstance.completedAt

/-- Status of a task in the task-status map of an instance. -/
def instTaskMapStatus (s : OrchestratorState) (recoveryId taskId : String) :
    Option RecoveryStatus :=
  match alookup recoveryId s.activeRecoveries with
  | none => none
  | some inst => (alookup taskId inst.taskStatus).map TaskStatusEntry.status

/-- logs_count reported for one task by get_recovery_status. -/
def snapLogsCount (s : OrchestratorState) (recoveryId taskId : String) : Option Nat :=
  (getRecoveryStatus s recoveryId).bind fun snap =>
    (snap.taskDetails.find? fun d => d.id == taskId).map TaskDetail.logsCount

/-! ### Specification-side helpers for the amended statements -/

/-- Whether one modelled subprocess outcome counts as a success for a
forward command (returncode 0). -/
def cmdSucceeds : CmdOutcome → Bool
  | .ran rc _ _ => decide (rc = 0)
  | .timedOut => false
  | .errored _ => false

/-- The log lines one forward command appends to task.logs. -/
def forwardLogsOf (o : CmdOutcome) : List String :=
  match o with
  | .ran rc out _ =>
      (if out ≠ "" then ["STDOUT: " ++ out] else []) ++
      (if rc ≠ 0 then [] else ["Command completed successfully"])
  | .timedOut => []
  | .errored _ => []

/-- The lines one forward command appends to task.error_logs. -/
def forwardErrLogsOf (c : String) (o : CmdOutcome) : List String :=
  match o with
  | .ran rc _ err =>
      (if err ≠ "" then ["STDERR: " ++ err] else []) ++
      (if rc ≠ 0 then ["Command failed with exit code " ++ toString rc] else [])
  | .timedOut => ["Command timed out: " ++ c]
  | .errored msg => ["Command execution error: " ++ msg]

/-- Whether one modelled subprocess outcome counts as a success for a
rollback command. -/
def rollbackCmdOk : CmdOutcome → Bool
  | .ran rc _ _ => decide (rc = 0)
  | .timedOut => false
  | .errored _ => false

/-- The log lines one rollback command appends to task.logs. -/
def rollbackLogsOf (c : String) (o : CmdOutcome) : List String :=
  match o with
  | .ran rc _ _ => if rc ≠ 0 then [] else ["Rollback command completed: " ++ c]
  | .timedOut => []
  | .errored _ => []

/-- The lines one rollback command appends to task.error_logs. -/
def rollbackErrLogsOf (c : String) (o : CmdOutcome) : List String :=
  match o with
  | .ran rc _ _ => if rc ≠ 0 then ["Rollback command failed: " ++ c] else []
  | .timedOut => ["Rollback command error: timeout"]
  | .errored msg => ["Rollback command error: " ++ msg]

/-- Concatenation of the per-command log contributions of a command
list. -/
def catLists (f : String → List String) : List String → List String
  | [] => []
  | c :: cs => f c ++ catLists f cs

/-- The rollback action sequence of the task at an index succeeds under
an environment (vacuously true for an empty sequence). -/
def rollbackOkAt (env : String → CmdOutcome) (plan : SystemRecovery) (i : Nat) : Bool :=
  match taskAt plan i with
  | some t => t.rollbackCommands.all fun c => rollbackCmdOk (env c)
  | none => true

/-- The rollback command list of the task at an index, the part of a
plan the rollback loop reads but never changes. -/
def rollbackCmdsAt (plan : SystemRecovery) (i : Nat) : Option (List String) :=
  (taskAt plan i).map RecoveryTask.rollbackCommands

/-! ### Concrete fixtures -/

/-- A task template with the fields the engine inspects. -/
def mkTask (id : String) (phase : RecoveryPhase) (createdAt : Nat)
    (deps commands rollbacks : List String) : RecoveryTask :=
  { id := id, name := id, description := "", phase := phase,
    priority := RecoveryPriority.normal, estimatedDuration := 0,
    dependencies := deps, commands := commands, rollbackCommands := rollbacks,
    status := RecoveryStatus.pending, assignedTo := "", createdAt := createdAt,
    startedAt := none, completedAt := none, logs := [], errorLogs := [],
    metadata := [] }

/-- A plan holding the given tasks. -/
def mkPlan (tasks : List RecoveryTask) : SystemRecovery :=
  { id := "PLAN", systemName := "sys", criticality := SystemCriticality.high,
    recoveryTasks := tasks, backupLocation := none, restorationProcedures := [],
    validationChecks := [], contactInfo := [], createdAt := 0, updatedAt := 0 }

/-- C1 fixture: phase ASSESSMENT holds task A whose only command fails,
phase CONTAINMENT holds task B with no dependencies. -/
def fixPlanAB : SystemRecovery :=
  mkPlan [mkTask "A" RecoveryPhase.assessment 0 [] ["ca"] [],
          mkTask "B" RecoveryPhase.containment 1 [] ["cb"] []]

/-- Command oracle for the C1 fixture: "ca" exits 1, all else exits 0. -/
def envAFails : String → CmdOutcome := fun c =>
  if c = "ca" then CmdOutcome.ran 1 "" "" else CmdOutcome.ran 0 "" ""

/-- Fresh orchestrator state holding the C1 plan under type "sys". -/
def stateAB : OrchestratorState :=
  { recoveryPlans := [("sys", fixPlanAB)], activeRecoveries := [], clock := 0 }

/-- The state after initiate_recovery("INC", "sys") on the C1 fixture. -/
def c1Final : OrchestratorState :=
  ((initiateRecovery envAFails stateAB "INC" "sys").toOption.map Prod.snd).getD stateAB

/-- The recovery id returned for the C1 fixture. -/
def c1Rid : String :=
  ((initiateRecovery envAFails stateAB "INC" "sys").toOption.map Prod.fst).getD ""

/-- C3 fixture: one task per phase; only the POST_INCIDENT command
fails, so the run reaches the final phase with a failing task there. -/
def fixPlanFive : SystemRecovery :=
  mkPlan [mkTask "TA" RecoveryPhase.assessment 0 [] ["a0"] [],
          mkTask "TC" RecoveryPhase.containment 1 [] ["c0"] [],
          mkTask "TE" RecoveryPhase.eradication 2 [] ["e0"] [],
          mkTask "TR" RecoveryPhase.recovery 3 [] ["r0"] [],
          mkTask "TP" RecoveryPhase.postIncident 4 [] ["p0"] []]

/-- Command oracle for the C3 fixture: "p0" exits 1, all else exits 0. -/
def envPFails : String → CmdOutcome := fun c =>
  if c = "p0" then CmdOutcome.ran 1 "" "" else CmdOutcome.ran 0 "" ""

/-- Fresh orchestrator state holding the C3 plan under type "sys". -/
def stateFive : OrchestratorState :=
  { recoveryPlans := [("sys", fixPlanFive)], activeRecoveries := [], clock := 0 }

/-- The state after initiate_recovery("INC", "sys") on the C3 fixture. -/
def c3Final : OrchestratorState :=
  ((initiateRecovery envPFails stateFive "INC" "sys").toOption.map Prod.snd).getD stateFive

/-- The recovery id returned for the C3 fixture. -/
def c3Rid : String :=
  ((initiateRecovery envPFails stateFive "INC" "sys").toOption.map Prod.fst).getD ""

/-- C4 fixture: a task with two commands. -/
def c4Task : RecoveryTask := mkTask "T" RecoveryPhase.assessment 0 [] ["c1", "c2"] []

/-- Command oracle for the C4 fixture: "c1" exits 1, "c2" exits 0 and
writes to stdout. -/
def envC1Fails : String → CmdOutcome := fun c =>
  if c = "c1" then CmdOutcome.ran 1 "" "" else CmdOutcome.ran 0 "out2" ""

/-- C5 fixture: one ASSESSMENT task that succeeds and logs output. -/
def fixPlanShared : SystemRecovery :=
  mkPlan [mkTask "A" RecoveryPhase.assessment 0 [] ["ca"] []]

/-- Command oracle for the C5 fixture: "ca" exits 0 and writes "hello". -/
def envOkHello : String → CmdOutcome := fun _ => CmdOutcome.ran 0 "hello" ""

/-- Fresh orchestrator state holding the C5 plan under type "sys". -/
def stateShared : OrchestratorState :=
  { recoveryPlans := [("sys", fixPlanShared)], activeRecoveries := [], clock := 0 }

/-- State after the first initiation ("I1") on the C5 fixture. -/
def c5s1 : OrchestratorState :=
  ((initiateRecovery envOkHello stateShared "I1" "sys").toOption.map Prod.snd).getD
    stateShared

/-- The recovery id of the first C5 instance. -/
def c5Rid1 : String :=
  ((initiateRecovery envOkHello stateShared "I1" "sys").toOption.map Prod.fst).getD ""

/-- State after a second initiation ("I2") from the same plan. -/
def c5s2 : OrchestratorState :=
  ((initiateRecovery envOkHello c5s1 "I2" "sys").toOption.map Prod.snd).getD c5s1

/-- Rollback fixture: two COMPLETED tasks with rollback commands; task
RB1 was created later than RB0. -/
def taskRB0 : RecoveryTask :=
  { mkTask "RB0" RecoveryPhase.recovery 1 [] ["f0"] ["u0"] with
      status := RecoveryStatus.completed }

/-- Second rollback-fixture task, created later. -/
def taskRB1 : RecoveryTask :=
  { mkTask "RB1" RecoveryPhase.recovery 2 [] ["f1"] ["u1"] with
      status := RecoveryStatus.completed }

/-- Rollback-fixture plan. -/
def fixPlanRB : SystemRecovery := mkPlan [taskRB0, taskRB1]

/-- Rollback-fixture instance: both tasks COMPLETED in the map, as after
a successful forward run. -/
def instRB : RecoveryInstance :=
  { id := "R7", incidentId := "INC", systemType := "sys",
    status := RecoveryStatus.inProgress, startedAt := some 0, completedAt := none,
    taskStatus :=
      [("RB0", ⟨RecoveryStatus.completed, some 1, some 2⟩),
       ("RB1", ⟨RecoveryStatus.completed, some 3, some 4⟩)] }

/-- Rollback-fixture state. -/
def stateRB : OrchestratorState :=
  { recoveryPlans := [("sys", fixPlanRB)], activeRecoveries := [("R7", instRB)],
    clock := 10 }

/-- Rollback oracle: rollback of RB1 ("u1") fails, of RB0 ("u0")
succeeds. -/
def envU1Fails : String → CmdOutcome := fun c =>
  if c = "u1" then CmdOutcome.ran 1 "" "" else CmdOutcome.ran 0 "" ""

/-- A second instance of the same system type as instRB (its own
task-status map still PENDING), aliasing the same plan object. -/
def instRB2 : RecoveryInstance :=
  { id := "R8", incidentId := "INC2", systemType := "sys",
    status := RecoveryStatus.inProgress, startedAt := some 5, completedAt := none,
    taskStatus :=
      [("RB0", ⟨RecoveryStatus.pending, none, none⟩),
       ("RB1", ⟨RecoveryStatus.pending, none, none⟩)] }

/-- State with two instances of system type "sys" sharing one plan. -/
def stateTwo : OrchestratorState :=
  { recoveryPlans := [("sys", fixPlanRB)],
    activeRecoveries := [("R7", instRB), ("R8", instRB2)], clock := 20 }

/-- C8 fixture: the single task of the plan fails. -/
def fixPlanF : SystemRecovery :=
  mkPlan [mkTask "F" RecoveryPhase.assessment 0 [] ["cf"] []]

/-- Command oracle for the C8 fixture: every command exits 1. -/
def envAllFail : String → CmdOutcome := fun _ => CmdOutcome.ran 1 "" ""

/-- Fresh orchestrator state holding the C8 plan under type "sys". -/
def stateF : OrchestratorState :=
  { recoveryPlans := [("sys", fixPlanF)], activeRecoveries := [], clock := 0 }

/-- The state after initiate_recovery("INC", "sys") on the C8 fixture. -/
def c8Final : OrchestratorState :=
  ((initiateRecovery envAllFail stateF "INC" "sys").toOption.map Prod.snd).getD stateF

/-- The recovery id returned for the C8 fixture. -/
def c8Rid : String :=
  ((initiateRecovery envAllFail stateF "INC" "sys").toOption.map Prod.fst).getD ""

/-! ### Theorems: shared helper lemmas -/

/-- Looking up the key just written finds the written value. -/
theorem alookup_aupdate_self {β : Type} (k : String) (v : β) (l : List (String × β)) :
    alookup k (aupdate k v l) = some v := by
  induction l with
  | nil => simp [alookup, aupdate]
  | cons hd tl ih =>
      obtain ⟨a, b⟩ := hd
      by_cases hk : a = k
      · simp [aupdate, hk, alookup]
      · simp [aupdate, hk, alookup, ih]

/-- Writing one key leaves lookups of other keys unchanged. -/
theorem alookup_aupdate_ne {β : Type} (k k2 : String) (v : β) (l : List (String × β))
    (h : k ≠ k2) : alookup k (aupdate k2 v l) = alookup k l := by
  have h2 : ¬ k2 = k := fun hh => h hh.symm
  induction l with
  | nil => simp [alookup, aupdate, h2]
  | cons hd tl ih =>
      obtain ⟨a, b⟩ := hd
      by_cases hk : a = k2
      · subst hk
        simp [aupdate, alookup, h2]
      · simp [aupdate, hk, alookup, ih]

/-- insertSorted only rearranges: the result is a permutation of the
element consed on the list. -/
theorem insertSorted_perm {α : Type} (le : α → α → Bool) (x : α) (l : List α) :
    (insertSorted le x l).Perm (x :: l) := by
  induction l with
  | nil => simp [insertSorted]
  | cons y ys ih =>
      by_cases hxy : le x y = true
      · simp [insertSorted, hxy]
      · simp only [insertSorted, hxy, if_false]
        exact (ih.cons y).trans (List.Perm.swap x y ys)

/-- stableSort permutes its input. -/
theorem stableSort_perm {α : Type} (le : α → α → Bool) (l : List α) :
    (stableSort le l).Perm l := by
  induction l with
  | nil => simp [stableSort]
  | cons x xs ih =>
      exact (insertSorted_perm le x (stableSort le xs)).trans (ih.cons x)

/-- Inserting into a le-sorted list keeps it le-sorted, for a transitive
and total comparison. -/
theorem insertSorted_pairwise {α : Type} (le : α → α → Bool)
    (htrans : ∀ a b c, le a b = true → le b c = true → le a c = true)
    (htotal : ∀ a b, le a b = true ∨ le b a = true)
    (x : α) (l : List α) (hl : l.Pairwise fun a b => le a b = true) :
    (insertSorted le x l).Pairwise fun a b => le a b = true := by
  induction l with
  | nil => simp [insertSorted]
  | cons y ys ih =>
      rw [List.pairwise_cons] at hl
      obtain ⟨hy, hys⟩ := hl
      by_cases hxy : le x y = true
      · simp only [insertSorted, hxy, if_true]
        refine List.Pairwise.cons ?_ (List.Pairwise.cons hy hys)
        intro z hz
        rw [List.mem_cons] at hz
        rcases hz with rfl | hz
        · exact hxy
        · exact htrans x y z hxy (hy z hz)
      · simp only [insertSorted, hxy, if_false]
        refine List.Pairwise.cons ?_ (ih hys)
        intro z hz
        have hz2 := (insertSorted_perm le x ys).mem_iff.mp hz
        rw [List.mem_cons] at hz2
        rcases hz2 with hz2 | hz2
        · subst hz2
          rcases htotal z y with hc | hc
          · exact absurd hc hxy
          · exact hc
        · exact hy z hz2

/-- stableSort sorts, for a transitive and total comparison. -/
theorem stableSort_pairwise {α : Type} (le : α → α → Bool)
    (htrans : ∀ a b c, le a b = true → le b c = true → le a c = true)
    (htotal : ∀ a b, le a b = true ∨ le b a = true) (l : List α) :
    (stableSort le l).Pairwise fun a b => le a b = true := by
  induction l with
  | nil => simp [stableSort]
  | cons x xs ih => exact insertSorted_pairwise le htrans htotal x (stableSort le xs) ih

/-- One forward command appends exactly its log contributions and
succeeds exactly when its exit code is 0. -/
theorem runOneCommand_eq (env : String → CmdOutcome) (task : RecoveryTask) (c : String) :
    runOneCommand env task c =
      ({ task with logs := task.logs ++ forwardLogsOf (env c),
                   errorLogs := task.errorLogs ++ forwardErrLogsOf c (env c) },
        cmdSucceeds (env c)) := by
  cases henv : env c with
  | ran rc out err =>
      simp only [runOneCommand, henv, forwardLogsOf, forwardErrLogsOf, cmdSucceeds]
      by_cases hrc : rc = 0 <;> by_cases hout : out = "" <;> by_cases herr : err = "" <;>
        simp [hrc, hout, herr, List.append_assoc]
  | timedOut => simp [runOneCommand, henv, forwardLogsOf, forwardErrLogsOf, cmdSucceeds]
  | errored msg => simp [runOneCommand, henv, forwardLogsOf, forwardErrLogsOf, cmdSucceeds]

/-- _run_task_commands runs the whole list: the final logs are the
initial logs followed by the contribution of every command (also the
ones after a failure), and the reported success is the conjunction over
all commands. -/
theorem runTaskCommands_spec (env : String → CmdOutcome) (cmds : List String) :
    ∀ task : RecoveryTask,
    runTaskCommands env task cmds =
      ({ task with logs := task.logs ++ catLists (fun c => forwardLogsOf (env c)) cmds,
                   errorLogs :=
                     task.errorLogs ++ catLists (fun c => forwardErrLogsOf c (env c)) cmds },
        cmds.all fun c => cmdSucceeds (env c)) := by
  induction cmds with
  | nil => intro task; simp [runTaskCommands, catLists]
  | cons c cs ih =>
      intro task
      simp only [runTaskCommands, runOneCommand_eq, ih, catLists, List.all_cons]
      simp [List.append_assoc]

/-- One rollback command appends exactly its log contributions, changes
nothing else on the task, and succeeds exactly when its exit code is 0. -/
theorem runOneRollback_eq (env : String → CmdOutcome) (task : RecoveryTask) (c : String) :
    runOneRollback env task c =
      ({ task with logs := task.logs ++ rollbackLogsOf c (env c),
                   errorLogs := task.errorLogs ++ rollbackErrLogsOf c (env c) },
        rollbackCmdOk (env c)) := by
  cases henv : env c with
  | ran rc out err =>
      simp only [runOneRollback, henv, rollbackLogsOf, rollbackErrLogsOf, rollbackCmdOk]
      by_cases hrc : rc = 0 <;> simp [hrc]
  | timedOut => simp [runOneRollback, henv, rollbackLogsOf, rollbackErrLogsOf, rollbackCmdOk]
  | errored msg =>
      simp [runOneRollback, henv, rollbackLogsOf, rollbackErrLogsOf, rollbackCmdOk]

/-- _run_rollback_commands runs the whole rollback list, only appending
log lines; status, metadata and every other field are untouched, and
the reported success is the conjunction over all rollback commands. -/
theorem runRollbackCommands_spec (env : String → CmdOutcome) (cmds : List String) :
    ∀ task : RecoveryTask,
    runRollbackCommands env task cmds =
      ({ task with logs := task.logs ++ catLists (fun c => rollbackLogsOf c (env c)) cmds,
                   errorLogs :=
                     task.errorLogs ++ catLists (fun c => rollbackErrLogsOf c (env c)) cmds },
        cmds.all fun c => rollbackCmdOk (env c)) := by
  induction cmds with
  | nil => intro task; simp [runRollbackCommands, catLists]
  | cons c cs ih =>
      intro task
      simp only [runRollbackCommands, runOneRollback_eq, ih, catLists, List.all_cons]
      simp [List.append_assoc]

/-- A failed rollback sequence leaves at least one error-log entry. -/
theorem rollbackErr_nonempty (env : String → CmdOutcome) (cmds : List String)
    (h : (cmds.all fun c => rollbackCmdOk (env c)) = false) :
    catLists (fun c => rollbackErrLogsOf c (env c)) cmds ≠ [] := by
  induction cmds with
  | nil => simp at h
  | cons c cs ih =>
      simp only [List.all_cons, Bool.and_eq_false_iff] at h
      rcases h with h | h
      · have : rollbackErrLogsOf c (env c) ≠ [] := by
          cases henv : env c with
          | ran rc out err =>
              rw [henv] at h
              simp only [rollbackCmdOk] at h
              have hrc : ¬ rc = 0 := by
                intro hh; rw [hh] at h; simp at h
              simp [rollbackErrLogsOf, hrc]
          | timedOut => simp [rollbackErrLogsOf]
          | errored msg => simp [rollbackErrLogsOf]
        simp only [catLists]
        intro hcontra
        rcases List.append_eq_nil.mp hcontra with ⟨h1, _⟩
        exact this h1
      · have := ih h
        simp only [catLists]
        intro hcontra
        rcases List.append_eq_nil.mp hcontra with ⟨_, h2⟩
        exact this h2

/-- The phase-specialized completion checkers implement
_check_phase_completion with the continuation given by _get_next_phase. -/
theorem checkPhaseCompletion_eq (env : String → CmdOutcome) (s : OrchestratorState)
    (rid : String) (p : RecoveryPhase) :
    checkPhaseCompletion env s rid p =
      checkPhaseWith ((getNextPhase p).map fun q => fun s2 => executeRecoveryPhase env s2 rid q)
        s rid p := by
  cases p <;> rfl

/-- The phase-specialized executors implement _execute_recovery_phase
with _check_phase_completion of the same phase as continuation. -/
theorem executeRecoveryPhase_eq (env : String → CmdOutcome) (s : OrchestratorState)
    (rid : String) (p : RecoveryPhase) :
    executeRecoveryPhase env s rid p =
      executePhaseWith env (fun s2 => checkPhaseCompletion env s2 rid p) s rid p := by
  cases p <;> rfl

/-- Case analysis of _check_phase_completion: the phase counts as
complete exactly when every member task has map status COMPLETED; then
the continuation runs (or the recovery is finalized), otherwise the
state is returned unchanged. -/
theorem checkPhaseWith_cases (nextExec : Option (OrchestratorState → OrchestratorState))
    (s : OrchestratorState) (rid : String) (phase : RecoveryPhase)
    (inst : RecoveryInstance) (plan : SystemRecovery)
    (hinst : alookup rid s.activeRecoveries = some inst)
    (hplan : alookup inst.systemType s.recoveryPlans = some plan) :
    ((∀ t ∈ plan.recoveryTasks, t.phase = phase → mapStatusIsCompleted inst t.id = true) →
       checkPhaseWith nextExec s rid phase =
         match nextExec with
         | some f => f s
         | none => finalizeRecovery s rid inst)
  ∧ ((∃ t ∈ plan.recoveryTasks, t.phase = phase ∧ mapStatusIsCompleted inst t.id = false) →
       checkPhaseWith nextExec s rid phase = s) := by
  constructor
  · intro hall
    have hlen : ((plan.recoveryTasks.filter fun t => decide (t.phase = phase)).filter
          fun t => mapStatusIsCompleted inst t.id).length
        = (plan.recoveryTasks.filter fun t => decide (t.phase = phase)).length := by
      rw [List.filter_length_eq_length]
      intro t ht
      rw [List.mem_filter] at ht
      exact hall t ht.1 (by simpa using ht.2)
    simp only [checkPhaseWith, hinst, hplan]
    rw [if_pos hlen]
  · intro hex
    obtain ⟨t, ht, hphase, hfalse⟩ := hex
    have hlen : ¬ ((plan.recoveryTasks.filter fun t => decide (t.phase = phase)).filter
          fun t => mapStatusIsCompleted inst t.id).length
        = (plan.recoveryTasks.filter fun t => decide (t.phase = phase)).length := by
      rw [List.filter_length_eq_length]
      intro hall
      have hmem : t ∈ plan.recoveryTasks.filter fun t => decide (t.phase = phase) := by
        rw [List.mem_filter]
        exact ⟨ht, by simpa using hphase⟩
      have := hall t hmem
      rw [hfalse] at this
      exact Bool.false_ne_true this
    simp only [checkPhaseWith, hinst, hplan]
    rw [if_neg hlen]

/-- _check_dependencies returns True exactly when every declared
dependency id is present in the instance task-status map with status
COMPLETED. -/
theorem checkDependencies_iff (task : RecoveryTask) (inst : RecoveryInstance) :
    checkDependencies task inst = true ↔
      ∀ d ∈ task.dependencies,
        ∃ e, alookup d inst.taskStatus = some e ∧ e.status = RecoveryStatus.completed := by
  rw [checkDependencies, List.all_eq_true]
  constructor
  · intro h d hd
    have := h d hd
    cases he : alookup d inst.taskStatus with
    | none => rw [he] at this; simp at this
    | some e =>
        rw [he] at this
        simp only [decide_eq_true_eq] at this
        exact ⟨e, rfl, this⟩
  · intro h d hd
    obtain ⟨e, he, hstat⟩ := h d hd
    rw [he]
    simpa using hstat

/-- Writing a task back at its own index makes it the task found there. -/
theorem taskAt_set_self (plan : SystemRecovery) (i : Nat) (t task : RecoveryTask)
    (htask : taskAt plan i = some task) :
    taskAt { plan with recoveryTasks := plan.recoveryTasks.set i t } i = some t := by
  have hi : i < plan.recoveryTasks.length := by
    rw [taskAt, List.get?_eq_getElem?] at htask
    exact (List.getElem?_eq_some_iff.mp htask).1
  simp [taskAt, List.getElem?_set_self hi]

/-- Writing a task back at one index leaves the others unchanged. -/
theorem taskAt_set_ne (plan : SystemRecovery) (i j : Nat) (t : RecoveryTask) (h : i ≠ j) :
    taskAt { plan with recoveryTasks := plan.recoveryTasks.set i t } j = taskAt plan j := by
  simp [taskAt, List.getElem?_set_ne h]

/-- C1, counterexample: in a run of initiate_recovery on a plan whose
single ASSESSMENT task A fails and whose CONTAINMENT task B has no
dependencies, every ASSESSMENT task is terminal (A ended Failed), yet
the sequencer does not advance: B is never visited (still Pending, never
started, Pending in the task-status map) and the instance stays
InProgress.  A Failed task does block advancement, refuting the claim
that a phase completes when all its tasks are merely terminal. -/
theorem C1_counterexample :
    planTaskStatus c1Final "sys" "A" = some RecoveryStatus.failed
  ∧ planTaskStatus c1Final "sys" "B" = some RecoveryStatus.pending
  ∧ planTaskStartedAt c1Final "sys" "B" = some none
  ∧ instTaskMapStatus c1Final c1Rid "B" = some RecoveryStatus.pending
  ∧ instStatus c1Final c1Rid = some RecoveryStatus.inProgress := by decide

/-- C3, counterexample: a run that reaches the last phase (every earlier
task Completed) and whose single POST_INCIDENT task ends Failed.  All
tasks of the last phase are terminal with one Failed, yet the instance
does not transition to Failed and no completion time is recorded: it
stays InProgress with completed_at = None. -/
theorem C3_counterexample :
    planTaskStatus c3Final "sys" "TA" = some RecoveryStatus.completed
  ∧ planTaskStatus c3Final "sys" "TC" = some RecoveryStatus.completed
  ∧ planTaskStatus c3Final "sys" "TE" = some RecoveryStatus.completed
  ∧ planTaskStatus c3Final "sys" "TR" = some RecoveryStatus.completed
  ∧ planTaskStatus c3Final "sys" "TP" = some RecoveryStatus.failed
  ∧ instStatus c3Final c3Rid = some RecoveryStatus.inProgress
  ∧ instCompletedAt c3Final c3Rid = some none := by decide

/-- C4, counterexample: a task with commands ["c1", "c2"] where "c1"
fails and "c2" succeeds writing "out2".  The run is reported
unsuccessful, yet the logs contain the stdout of "c2" and its success
line: the second action was executed after the first failed, refuting
the fail-fast claim. -/
theorem C4_counterexample :
    (runTaskCommands envC1Fails c4Task c4Task.commands).2 = false
  ∧ (runTaskCommands envC1Fails c4Task c4Task.commands).1.logs
      = ["STDOUT: out2", "Command completed successfully"] := by decide

/-- C5, counterexample: after a first recovery instance of type "sys"
runs, its snapshot reports 2 log lines for task A; after a second
instance is spawned from the same plan template and runs, the snapshot
of the FIRST instance reports 4 log lines for A.  Executing tasks of the
second instance changed the runtime state observed through the first:
task templates are shared, not deep-copied. -/
theorem C5_counterexample :
    snapLogsCount c5s1 c5Rid1 "A" = some 2
  ∧ snapLogsCount c5s2 c5Rid1 "A" = some 4 := by decide

/-- C7, counterexample: rolling back an instance with two Completed
tasks where the rollback of RB1 (most recent) fails and that of RB0
succeeds.  RB1 keeps status Completed and gets the failure recorded in
its error logs, and RB0 is still attempted and reset to Pending — but
the metadata of RB1 is left empty: no rollback_failed flag is ever set,
refuting that part of the claim. -/
theorem C7_counterexample :
    (rollbackRecovery envU1Fails stateRB "R7").1 = false
  ∧ planTaskStatus (rollbackRecovery envU1Fails stateRB "R7").2 "sys" "RB1"
      = some RecoveryStatus.completed
  ∧ planTaskErrorLogs (rollbackRecovery envU1Fails stateRB "R7").2 "sys" "RB1"
      = some ["Rollback command failed: u1"]
  ∧ planTaskMetadata (rollbackRecovery envU1Fails stateRB "R7").2 "sys" "RB1"
      = some []
  ∧ planTaskStatus (rollbackRecovery envU1Fails stateRB "R7").2 "sys" "RB0"
      = some RecoveryStatus.pending := by decide

/-- C8: evaluation at the failing input.  The single task F of the plan
ends Failed, yet get_recovery_status reports failed_tasks = 0 (with
completed_tasks = 0 of 1 and progress 0): _execute_recovery_task never
writes FAILED into the instance task-status map that the query counts
from, so failedTasks can never equal the number of tasks that ended
Failed. -/
theorem C8_failed_tasks_zero :
    planTaskStatus c8Final "sys" "F" = some RecoveryStatus.failed
  ∧ (getRecoveryStatus c8Final c8Rid).map RecoverySnapshot.failedTasks = some 0
  ∧ (getRecoveryStatus c8Final c8Rid).map RecoverySnapshot.completedTasks = some 0
  ∧ (getRecoveryStatus c8Final c8Rid).map RecoverySnapshot.totalTasks = some 1 := by
  decide

/-- C1 (amended): a phase is considered complete exactly when every one
of its tasks has status Completed in the instance task-status map, and
only then does the sequencer run the next phase (or finalize after the
last); a task that is not map-Completed — in particular one that ended
Failed or Skipped, which the engine never records as COMPLETED — blocks
advancement: the completion check returns the state unchanged. -/
theorem C1_amended_phase_advance (env : String → CmdOutcome) (s : OrchestratorState)
    (rid : String) (phase : RecoveryPhase) (inst : RecoveryInstance) (plan : SystemRecovery)
    (hinst : alookup rid s.activeRecoveries = some inst)
    (hplan : alookup inst.systemType s.recoveryPlans = some plan) :
    ((∃ t ∈ plan.recoveryTasks, t.phase = phase ∧ mapStatusIsCompleted inst t.id = false) →
       checkPhaseCompletion env s rid phase = s)
  ∧ ((∀ t ∈ plan.recoveryTasks, t.phase = phase → mapStatusIsCompleted inst t.id = true) →
       checkPhaseCompletion env s rid phase =
         match getNextPhase phase with
         | some nxt => executeRecoveryPhase env s rid nxt
         | none => finalizeRecovery s rid inst) := by
  have hc := checkPhaseWith_cases
    ((getNextPhase phase).map fun q => fun s2 => executeRecoveryPhase env s2 rid q)
    s rid phase inst plan hinst hplan
  rw [checkPhaseCompletion_eq]
  constructor
  · exact hc.2
  · intro hall
    rw [hc.1 hall]
    cases getNextPhase phase <;> rfl

/-- Witness for C1_amended_phase_advance at the rollback fixture, phase
RECOVERY, both member tasks map-Completed. -/
theorem C1_amended_phase_advance_witness :
    alookup "R7" stateRB.activeRecoveries = some instRB
  ∧ alookup instRB.systemType stateRB.recoveryPlans = some fixPlanRB
  ∧ (((∃ t ∈ fixPlanRB.recoveryTasks, t.phase = RecoveryPhase.recovery ∧
          mapStatusIsCompleted instRB t.id = false) →
        checkPhaseCompletion envU1Fails stateRB "R7" RecoveryPhase.recovery = stateRB)
    ∧ ((∀ t ∈ fixPlanRB.recoveryTasks, t.phase = RecoveryPhase.recovery →
          mapStatusIsCompleted instRB t.id = true) →
        checkPhaseCompletion envU1Fails stateRB "R7" RecoveryPhase.recovery =
          match getNextPhase RecoveryPhase.recovery with
          | some nxt => executeRecoveryPhase envU1Fails stateRB "R7" nxt
          | none => finalizeRecovery stateRB "R7" instRB)) :=
  ⟨by decide, by decide,
    C1_amended_phase_advance envU1Fails stateRB "R7" RecoveryPhase.recovery instRB
      fixPlanRB (by decide) (by decide)⟩

/-- C3 (amended): when the completion check runs for the last phase
(PostIncident), the instance transitions to Completed — with the
completion time recorded — exactly when every PostIncident task has map
status COMPLETED; if any task of the phase is not map-Completed (in
particular one that ended Failed, which is never recorded as COMPLETED),
the instance does not transition at all: there is no transition to
Failed anywhere in the engine. -/
theorem C3_amended_final_phase (env : String → CmdOutcome) (s : OrchestratorState)
    (rid : String) (inst : RecoveryInstance) (plan : SystemRecovery)
    (hinst : alookup rid s.activeRecoveries = some inst)
    (hplan : alookup inst.systemType s.recoveryPlans = some plan) :
    ((∀ t ∈ plan.recoveryTasks, t.phase = RecoveryPhase.postIncident →
        mapStatusIsCompleted inst t.id = true) →
       checkPhaseCompletion env s rid RecoveryPhase.postIncident = finalizeRecovery s rid inst
       ∧ instStatus (finalizeRecovery s rid inst) rid = some RecoveryStatus.completed
       ∧ instCompletedAt (finalizeRecovery s rid inst) rid = some (some s.clock))
  ∧ ((∃ t ∈ plan.recoveryTasks, t.phase = RecoveryPhase.postIncident ∧
        mapStatusIsCompleted inst t.id = false) →
       checkPhaseCompletion env s rid RecoveryPhase.postIncident = s) := by
  have hc := checkPhaseWith_cases none s rid RecoveryPhase.postIncident inst plan hinst hplan
  have heq : checkPhaseCompletion env s rid RecoveryPhase.postIncident
      = checkPhaseWith none s rid RecoveryPhase.postIncident := rfl
  constructor
  · intro hall
    refine ⟨?_, ?_, ?_⟩
    · rw [heq]; exact hc.1 hall
    · simp [instStatus, finalizeRecovery, alookup_aupdate_self]
    · simp [instCompletedAt, finalizeRecovery, alookup_aupdate_self]
  · intro hex
    rw [heq]; exact hc.2 hex

/-- Witness for C3_amended_final_phase at the rollback fixture (whose
plan has no PostIncident task, so the all-Completed premise holds). -/
theorem C3_amended_final_phase_witness :
    alookup "R7" stateRB.activeRecoveries = some instRB
  ∧ alookup instRB.systemType stateRB.recoveryPlans = some fixPlanRB
  ∧ (((∀ t ∈ fixPlanRB.recoveryTasks, t.phase = RecoveryPhase.postIncident →
          mapStatusIsCompleted instRB t.id = true) →
        checkPhaseCompletion envU1Fails stateRB "R7" RecoveryPhase.postIncident
          = finalizeRecovery stateRB "R7" instRB
        ∧ instStatus (finalizeRecovery stateRB "R7" instRB) "R7"
            = some RecoveryStatus.completed
        ∧ instCompletedAt (finalizeRecovery stateRB "R7" instRB) "R7"
            = some (some stateRB.clock))
    ∧ ((∃ t ∈ fixPlanRB.recoveryTasks, t.phase = RecoveryPhase.postIncident ∧
          mapStatusIsCompleted instRB t.id = false) →
        checkPhaseCompletion envU1Fails stateRB "R7" RecoveryPhase.postIncident = stateRB)) :=
  ⟨by decide, by decide,
    C3_amended_final_phase envU1Fails stateRB "R7" instRB fixPlanRB (by decide) (by decide)⟩

/-- C2: the dependency gate of the phase loop.  (i) _check_dependencies
holds exactly when every declared dependency id is in the instance map
with status Completed.  (ii) When the gate fails, the loop marks the
task Skipped and moves on: the skipped task keeps its logs, error logs
and empty start time — none of its actions ran.  (iii) When the gate
holds, the task is executed: it is handed to the command runner in
status InProgress (its recorded start time is the visit clock) and ends
Completed or Failed. -/
theorem C2_dependency_gate (env : String → CmdOutcome)
    (check : OrchestratorState → OrchestratorState) (s : OrchestratorState)
    (rid : String) (i : Nat) (rest : List Nat)
    (inst : RecoveryInstance) (plan : SystemRecovery) (task : RecoveryTask)
    (hinst : alookup rid s.activeRecoveries = some inst)
    (hplan : alookup inst.systemType s.recoveryPlans = some plan)
    (htask : taskAt plan i = some task) :
    (checkDependencies task inst = true ↔
       ∀ d ∈ task.dependencies,
         ∃ e, alookup d inst.taskStatus = some e ∧ e.status = RecoveryStatus.completed)
  ∧ (checkDependencies task inst = false →
       runPhaseTasksWith env check rid s (i :: rest)
         = runPhaseTasksWith env check rid
             (setPlanTask s inst.systemType plan i
               { task with status := RecoveryStatus.skipped }) rest
       ∧ ({ task with status := RecoveryStatus.skipped }).logs = task.logs
       ∧ ({ task with status := RecoveryStatus.skipped }).errorLogs = task.errorLogs
       ∧ ({ task with status := RecoveryStatus.skipped }).startedAt = task.startedAt)
  ∧ (checkDependencies task inst = true →
       runPhaseTasksWith env check rid s (i :: rest)
         = runPhaseTasksWith env check rid (check (executeRecoveryTaskCore env s rid i)) rest
       ∧ ∃ t2 : RecoveryTask,
           (alookup inst.systemType (executeRecoveryTaskCore env s rid i).recoveryPlans).bind
               (fun p => taskAt p i) = some t2
           ∧ t2.startedAt = some s.clock
           ∧ (t2.status = RecoveryStatus.completed ∨ t2.status = RecoveryStatus.failed)) := by
  refine ⟨checkDependencies_iff task inst, ?_, ?_⟩
  · intro hdep
    refine ⟨?_, rfl, rfl, rfl⟩
    simp only [runPhaseTasksWith, hinst, hplan, htask, hdep]
    rfl
  · intro hdep
    constructor
    · simp only [runPhaseTasksWith, hinst, hplan, htask, hdep]
      rfl
    · simp only [executeRecoveryTaskCore, hinst, hplan, htask]
      rw [runTaskCommands_spec]
      cases hb : ((task.commands.all fun c => cmdSucceeds (env c)) : Bool) with
      | true =>
          rw [if_pos rfl]
          refine ⟨({ task with
                      status := RecoveryStatus.completed,
                      startedAt := some s.clock, completedAt := some (s.clock + 1),
                      logs :=
                        task.logs ++ catLists (fun c => forwardLogsOf (env c)) task.commands,
                      errorLogs :=
                        task.errorLogs
                          ++ catLists (fun c => forwardErrLogsOf c (env c)) task.commands }),
                  ?_, rfl, Or.inl rfl⟩
          rw [alookup_aupdate_self]
          simp only [Option.bind_some]
          exact taskAt_set_self plan i _ task htask
      | false =>
          rw [if_neg Bool.false_ne_true]
          refine ⟨({ task with
                      status := RecoveryStatus.failed,
                      startedAt := some s.clock, completedAt := some (s.clock + 1),
                      logs :=
                        task.logs ++ catLists (fun c => forwardLogsOf (env c)) task.commands,
                      errorLogs :=
                        task.errorLogs
                          ++ catLists (fun c => forwardErrLogsOf c (env c)) task.commands }),
                  ?_, rfl, Or.inr rfl⟩
          rw [alookup_aupdate_self]
          simp only [Option.bind_some]
          exact taskAt_set_self plan i _ task htask

/-- Witness for C2_dependency_gate: the rollback fixture state, index 0,
whose task RB0 has no dependencies (the gate holds). -/
theorem C2_dependency_gate_witness :
    alookup "R7" stateRB.activeRecoveries = some instRB
  ∧ alookup instRB.systemType stateRB.recoveryPlans = some fixPlanRB
  ∧ taskAt fixPlanRB 0 = some taskRB0
  ∧ ((checkDependencies taskRB0 instRB = true ↔
       ∀ d ∈ taskRB0.dependencies,
         ∃ e, alookup d instRB.taskStatus = some e ∧ e.status = RecoveryStatus.completed)
  ∧ (checkDependencies taskRB0 instRB = false →
       runPhaseTasksWith envU1Fails id "R7" stateRB (0 :: [])
         = runPhaseTasksWith envU1Fails id "R7"
             (setPlanTask stateRB instRB.systemType fixPlanRB 0
               { taskRB0 with status := RecoveryStatus.skipped }) []
       ∧ ({ taskRB0 with status := RecoveryStatus.skipped }).logs = taskRB0.logs
       ∧ ({ taskRB0 with status := RecoveryStatus.skipped }).errorLogs = taskRB0.errorLogs
       ∧ ({ taskRB0 with status := RecoveryStatus.skipped }).startedAt = taskRB0.startedAt)
  ∧ (checkDependencies taskRB0 instRB = true →
       runPhaseTasksWith envU1Fails id "R7" stateRB (0 :: [])
         = runPhaseTasksWith envU1Fails id "R7"
             (id (executeRecoveryTaskCore envU1Fails stateRB "R7" 0)) []
       ∧ ∃ t2 : RecoveryTask,
           (alookup instRB.systemType
               (executeRecoveryTaskCore envU1Fails stateRB "R7" 0).recoveryPlans).bind
               (fun p => taskAt p 0) = some t2
           ∧ t2.startedAt = some stateRB.clock
           ∧ (t2.status = RecoveryStatus.completed ∨ t2.status = RecoveryStatus.failed))) :=
  ⟨by decide, by decide, by decide,
    C2_dependency_gate envU1Fails id stateRB "R7" 0 [] instRB fixPlanRB taskRB0
      (by decide) (by decide) (by decide)⟩

/-- C4 (amended): forward action execution runs the ENTIRE command
sequence in order regardless of failures — a failed action does not
stop the later ones — every action contributes its captured output to
the logs, and the reported result is success exactly when every single
action succeeded. -/
theorem C4_amended_run_all (env : String → CmdOutcome) (task : RecoveryTask)
    (cmds : List String) :
    runTaskCommands env task cmds =
      ({ task with logs := task.logs ++ catLists (fun c => forwardLogsOf (env c)) cmds,
                   errorLogs :=
                     task.errorLogs ++ catLists (fun c => forwardErrLogsOf c (env c)) cmds },
        cmds.all fun c => cmdSucceeds (env c)) :=
  runTaskCommands_spec env cmds task

/-- C5 (amended): instances are NOT isolated — an instantiation shares
the plan (and so every task object) with all other instances of the
same system type, so the per-task runtime log counts reported by
get_recovery_status are identical through any two such instances; only
the per-instance task-status map is private. -/
theorem C5_amended_shared_tasks (s : OrchestratorState) (rid1 rid2 : String)
    (inst1 inst2 : RecoveryInstance)
    (h1 : alookup rid1 s.activeRecoveries = some inst1)
    (h2 : alookup rid2 s.activeRecoveries = some inst2)
    (hsys : inst1.systemType = inst2.systemType) :
    (getRecoveryStatus s rid1).map
        (fun sn => sn.taskDetails.map fun d => (d.id, d.logsCount, d.errorLogsCount))
      = (getRecoveryStatus s rid2).map
        (fun sn => sn.taskDetails.map fun d => (d.id, d.logsCount, d.errorLogsCount)) := by
  simp only [getRecoveryStatus, h1, h2, hsys]
  cases hp : alookup inst2.systemType s.recoveryPlans with
  | none => rfl
  | some plan =>
      simp only [Option.map_some]
      refine congrArg some ?_
      beta_reduce
      rw [List.map_map, List.map_map]
      exact List.map_congr_left fun t ht => rfl

/-- Witness for C5_amended_shared_tasks at a state holding two
instances R7 and R8 of system type "sys". -/
theorem C5_amended_shared_tasks_witness :
    alookup "R7" stateTwo.activeRecoveries = some instRB
  ∧ alookup "R8" stateTwo.activeRecoveries = some instRB2
  ∧ instRB.systemType = instRB2.systemType
  ∧ (getRecoveryStatus stateTwo "R7").map
        (fun sn => sn.taskDetails.map fun d => (d.id, d.logsCount, d.errorLogsCount))
      = (getRecoveryStatus stateTwo "R8").map
        (fun sn => sn.taskDetails.map fun d => (d.id, d.logsCount, d.errorLogsCount)) :=
  ⟨by decide, by decide, by decide,
    C5_amended_shared_tasks stateTwo "R7" "R8" instRB instRB2 (by decide) (by decide)
      (by decide)⟩

/-- Every id of the folded tasks (and every key already mapped to the
entry) looks up to the constant entry after the initialization fold. -/
theorem foldl_aupdate_lookup (entry : TaskStatusEntry) (tasks : List RecoveryTask) :
    ∀ (m : List (String × TaskStatusEntry)) (tid : String),
      (tid ∈ tasks.map RecoveryTask.id ∨ alookup tid m = some entry) →
      alookup tid (tasks.foldl (fun m2 t => aupdate t.id entry m2) m) = some entry := by
  induction tasks with
  | nil =>
      intro m tid h
      rcases h with h | h
      · simp at h
      · simpa using h
  | cons t ts ih =>
      intro m tid h
      rw [List.foldl_cons]
      apply ih
      by_cases htid : tid = t.id
      · right
        rw [htid]
        exact alookup_aupdate_self t.id entry m
      · rcases h with h | h
        · rw [List.map_cons, List.mem_cons] at h
          rcases h with h | h
          · exact absurd h htid
          · left; exact h
        · right
          rw [alookup_aupdate_ne tid t.id entry m htid]
          exact h

/-- C9: initiate_recovery surfaces an unknown system type to the caller
as an error (the ValueError of line 457), and for a registered type it
returns a recovery id built from the incident id, the upper-cased type
and the initiation time, with every task of the plan PENDING in the
initial task-status map of the new instance. -/
theorem C9_initiate_recovery (env : String → CmdOutcome) (s : OrchestratorState)
    (incidentId systemType : String) :
    (alookup systemType s.recoveryPlans = none →
       initiateRecovery env s incidentId systemType
         = Except.error ("Unknown system type: " ++ systemType))
  ∧ (∀ plan, alookup systemType s.recoveryPlans = some plan →
       (∃ s2, initiateRecovery env s incidentId systemType
           = Except.ok ("RECOVERY-" ++ incidentId ++ "-" ++ strUpper systemType ++ "-"
               ++ toString s.clock, s2))
       ∧ ∀ t ∈ plan.recoveryTasks,
           alookup t.id (initTaskStatus plan.recoveryTasks)
             = some ⟨RecoveryStatus.pending, none, none⟩) := by
  constructor
  · intro hnone
    simp [initiateRecovery, hnone]
  · intro plan hplan
    constructor
    · simp only [initiateRecovery, hplan]
      exact ⟨_, rfl⟩
    · intro t ht
      exact foldl_aupdate_lookup ⟨RecoveryStatus.pending, none, none⟩ plan.recoveryTasks []
        t.id (Or.inl (List.mem_map_of_mem RecoveryTask.id ht))

/-- Witness for C9_initiate_recovery: "ghost" is not a registered type
of the rollback-fixture state, "sys" is. -/
theorem C9_initiate_recovery_witness :
    (alookup "ghost" stateRB.recoveryPlans = none →
       initiateRecovery envU1Fails stateRB "I" "ghost"
         = Except.error ("Unknown system type: " ++ "ghost"))
  ∧ (∀ plan, alookup "ghost" stateRB.recoveryPlans = some plan →
       (∃ s2, initiateRecovery envU1Fails stateRB "I" "ghost"
           = Except.ok ("RECOVERY-" ++ "I" ++ "-" ++ strUpper "ghost" ++ "-"
               ++ toString stateRB.clock, s2))
       ∧ ∀ t ∈ plan.recoveryTasks,
           alookup t.id (initTaskStatus plan.recoveryTasks)
             = some ⟨RecoveryStatus.pending, none, none⟩) :=
  C9_initiate_recovery envU1Fails stateRB "I" "ghost"

/-- C10: rollback_recovery on a recovery id that is not registered
returns False with the state untouched (no exception is modelled: the
function returns normally), the same False an actual rollback attempt
with a failing rollback command produces (the R7 fixture), so the two
cases are indistinguishable from the return value. -/
theorem C10_rollback_unknown_id (env : String → CmdOutcome) (s : OrchestratorState)
    (rid : String) (h : alookup rid s.activeRecoveries = none) :
    rollbackRecovery env s rid = (false, s)
  ∧ (rollbackRecovery envU1Fails stateRB "R7").1 = false := by
  constructor
  · simp [rollbackRecovery, h]
  · decide

/-- Witness for C10_rollback_unknown_id at the unregistered id
"MISSING". -/
theorem C10_rollback_unknown_id_witness :
    rollbackRecovery envU1Fails stateRB "MISSING" = (false, stateRB)
  ∧ (rollbackRecovery envU1Fails stateRB "R7").1 = false :=
  C10_rollback_unknown_id envU1Fails stateRB "MISSING" (by decide)

/-- C7 (amended): for a task visited by the rollback loop with a
nonempty rollback sequence — in the loop these are the map-Completed
tasks — full rollback success resets its status to Pending; on any
rollback failure the task keeps its previous status (no state
regression) with the failure recorded as new error-log entries, but its
metadata is left unchanged (the code sets no rollback_failed flag); and
in both cases the loop continues with the remaining tasks, so one
failure never prevents the other rollbacks from being attempted. -/
theorem C7_amended_rollback_step (env : String → CmdOutcome) (st : String)
    (s : OrchestratorState) (i : Nat) (rest : List Nat) (acc : Bool)
    (plan : SystemRecovery) (task : RecoveryTask)
    (hplan : alookup st s.recoveryPlans = some plan)
    (htask : taskAt plan i = some task)
    (hne : task.rollbackCommands ≠ []) :
    ((runRollbackCommands env task task.rollbackCommands).2 = true →
        rollbackLoop env st s (i :: rest) acc
          = rollbackLoop env st
              (setPlanTask s st plan i
                { (runRollbackCommands env task task.rollbackCommands).1 with
                    status := RecoveryStatus.pending }) rest acc
        ∧ (runRollbackCommands env task task.rollbackCommands).1.metadata = task.metadata)
  ∧ ((runRollbackCommands env task task.rollbackCommands).2 = false →
        rollbackLoop env st s (i :: rest) acc
          = rollbackLoop env st
              (setPlanTask s st plan i (runRollbackCommands env task task.rollbackCommands).1)
              rest false
        ∧ (runRollbackCommands env task task.rollbackCommands).1.status = task.status
        ∧ (runRollbackCommands env task task.rollbackCommands).1.metadata = task.metadata
        ∧ task.errorLogs.length
            < (runRollbackCommands env task task.rollbackCommands).1.errorLogs.length) := by
  have hie : ¬ task.rollbackCommands.isEmpty = true := by
    rw [List.isEmpty_iff]
    exact hne
  have hspec := runRollbackCommands_spec env task.rollbackCommands task
  constructor
  · intro hsucc
    constructor
    · simp only [rollbackLoop, hplan, htask]
      rw [if_neg hie, hsucc]
      rw [if_pos rfl, Bool.and_true]
    · rw [hspec]
  · intro hfail
    refine ⟨?_, ?_, ?_, ?_⟩
    · simp only [rollbackLoop, hplan, htask]
      rw [if_neg hie, hfail]
      rw [if_neg Bool.false_ne_true, Bool.and_false]
    · rw [hspec]
    · rw [hspec]
    · rw [hspec] at hfail
      rw [hspec]
      have hcat := rollbackErr_nonempty env task.rollbackCommands hfail
      show task.errorLogs.length
        < (task.errorLogs
            ++ catLists (fun c => rollbackErrLogsOf c (env c)) task.rollbackCommands).length
      rw [List.length_append]
      have hpos := List.length_pos.mpr hcat
      omega

/-- Witness for C7_amended_rollback_step at the rollback fixture: task
RB1 (index 1) whose rollback command "u1" fails. -/
theorem C7_amended_rollback_step_witness :
    alookup "sys" stateRB.recoveryPlans = some fixPlanRB
  ∧ taskAt fixPlanRB 1 = some taskRB1
  ∧ taskRB1.rollbackCommands ≠ []
  ∧ (((runRollbackCommands envU1Fails taskRB1 taskRB1.rollbackCommands).2 = true →
        rollbackLoop envU1Fails "sys" stateRB (1 :: [0]) true
          = rollbackLoop envU1Fails "sys"
              (setPlanTask stateRB "sys" fixPlanRB 1
                { (runRollbackCommands envU1Fails taskRB1 taskRB1.rollbackCommands).1 with
                    status := RecoveryStatus.pending }) [0] true
        ∧ (runRollbackCommands envU1Fails taskRB1 taskRB1.rollbackCommands).1.metadata
            = taskRB1.metadata)
    ∧ ((runRollbackCommands envU1Fails taskRB1 taskRB1.rollbackCommands).2 = false →
        rollbackLoop envU1Fails "sys" stateRB (1 :: [0]) true
          = rollbackLoop envU1Fails "sys"
              (setPlanTask stateRB "sys" fixPlanRB 1
                (runRollbackCommands envU1Fails taskRB1 taskRB1.rollbackCommands).1) [0] false
        ∧ (runRollbackCommands envU1Fails taskRB1 taskRB1.rollbackCommands).1.status
            = taskRB1.status
        ∧ (runRollbackCommands envU1Fails taskRB1 taskRB1.rollbackCommands).1.metadata
            = taskRB1.metadata
        ∧ taskRB1.errorLogs.length
            < (runRollbackCommands envU1Fails taskRB1 taskRB1.rollbackCommands).1.errorLogs.length)) :=
  ⟨by decide, by decide, by decide,
    C7_amended_rollback_step envU1Fails "sys" stateRB 1 [0] true fixPlanRB taskRB1
      (by decide) (by decide) (by decide)⟩

/-- Permuted lists agree on List.all. -/
theorem perm_all_eq {α : Type} {l1 l2 : List α} (h : l1.Perm l2) (p : α → Bool) :
    l1.all p = l2.all p := by
  rw [Bool.eq_iff_iff, List.all_eq_true, List.all_eq_true]
  constructor
  · intro hh x hx
    exact hh x (h.mem_iff.mpr hx)
  · intro hh x hx
    exact hh x (h.mem_iff.mp hx)

/-- rollbackOkAt through the rollback-command view of a plan. -/
theorem rollbackOkAt_of_cmds (env : String → CmdOutcome) (plan0 : SystemRecovery)
    (i : Nat) (cs : List String) (h : rollbackCmdsAt plan0 i = some cs) :
    rollbackOkAt env plan0 i = cs.all fun c => rollbackCmdOk (env c) := by
  rw [rollbackCmdsAt] at h
  obtain ⟨t0, ht0, hcs⟩ := Option.map_eq_some'.mp h
  rw [rollbackOkAt, ht0]
  show (t0.rollbackCommands.all fun c => rollbackCmdOk (env c))
    = cs.all fun c => rollbackCmdOk (env c)
  rw [hcs]

/-- rollbackOkAt is vacuously true where the plan has no task. -/
theorem rollbackOkAt_of_none (env : String → CmdOutcome) (plan0 : SystemRecovery)
    (i : Nat) (h : rollbackCmdsAt plan0 i = none) :
    rollbackOkAt env plan0 i = true := by
  rw [rollbackCmdsAt, Option.map_eq_none'] at h
  rw [rollbackOkAt, h]

/-- Step equation of the rollback loop: no task at the index. -/
theorem rollbackLoop_cons_notask (env : String → CmdOutcome) (st : String)
    (s : OrchestratorState) (i : Nat) (rest : List Nat) (acc : Bool)
    (plan : SystemRecovery) (hplan : alookup st s.recoveryPlans = some plan)
    (ht : taskAt plan i = none) :
    rollbackLoop env st s (i :: rest) acc = rollbackLoop env st s rest acc := by
  simp only [rollbackLoop, hplan, ht]

/-- Step equation of the rollback loop: the task has no rollback
commands, so it is skipped entirely. -/
theorem rollbackLoop_cons_empty (env : String → CmdOutcome) (st : String)
    (s : OrchestratorState) (i : Nat) (rest : List Nat) (acc : Bool)
    (plan : SystemRecovery) (task : RecoveryTask)
    (hplan : alookup st s.recoveryPlans = some plan) (ht : taskAt plan i = some task)
    (he : task.rollbackCommands.isEmpty = true) :
    rollbackLoop env st s (i :: rest) acc = rollbackLoop env st s rest acc := by
  simp only [rollbackLoop, hplan, ht, he]
  exact if_pos trivial

/-- Step equation of the rollback loop: the task has rollback commands,
which all run; on success the task is reset to PENDING, otherwise left
as produced by the runner, and the accumulator picks up the result. -/
theorem rollbackLoop_cons_run (env : String → CmdOutcome) (st : String)
    (s : OrchestratorState) (i : Nat) (rest : List Nat) (acc : Bool)
    (plan : SystemRecovery) (task : RecoveryTask)
    (hplan : alookup st s.recoveryPlans = some plan) (ht : taskAt plan i = some task)
    (he : task.rollbackCommands.isEmpty = false) :
    rollbackLoop env st s (i :: rest) acc
      = rollbackLoop env st
          (setPlanTask s st plan i
            (if (runRollbackCommands env task task.rollbackCommands).2 = true then
              { (runRollbackCommands env task task.rollbackCommands).1 with
                  status := RecoveryStatus.pending }
             else (runRollbackCommands env task task.rollbackCommands).1))
          rest (acc && (runRollbackCommands env task task.rollbackCommands).2) := by
  simp only [rollbackLoop, hplan, ht, he]
  rw [if_neg Bool.false_ne_true]

/-- The result flag of the rollback loop: starting from a state whose
registered plan agrees with a reference plan on every rollback command
list (the loop never changes those), the returned flag is the starting
accumulator AND-ed with per-task rollback success over the visited
indices. -/
theorem rollbackLoop_result (env : String → CmdOutcome) (st : String)
    (plan0 : SystemRecovery) (idxs : List Nat) :
    ∀ (s : OrchestratorState) (acc : Bool) (plan : SystemRecovery),
      alookup st s.recoveryPlans = some plan →
      (∀ j, rollbackCmdsAt plan j = rollbackCmdsAt plan0 j) →
      (rollbackLoop env st s idxs acc).1
        = (acc && idxs.all fun i => rollbackOkAt env plan0 i) := by
  induction idxs with
  | nil =>
      intro s acc plan hplan hagree
      simp [rollbackLoop]
  | cons i rest ih =>
      intro s acc plan hplan hagree
      cases ht : taskAt plan i with
      | none =>
          have hok : rollbackOkAt env plan0 i = true := by
            apply rollbackOkAt_of_none env plan0 i
            rw [← hagree i, rollbackCmdsAt, ht]
            rfl
          rw [rollbackLoop_cons_notask env st s i rest acc plan hplan ht,
            ih s acc plan hplan hagree, List.all_cons, hok, Bool.true_and]
      | some task =>
          cases hcmds : task.rollbackCommands with
          | nil =>
              have hok : rollbackOkAt env plan0 i = true := by
                rw [rollbackOkAt_of_cmds env plan0 i task.rollbackCommands
                  (by rw [← hagree i, rollbackCmdsAt, ht]; rfl)]
                rw [hcmds]
                rfl
              rw [rollbackLoop_cons_empty env st s i rest acc plan task hplan ht
                  (by rw [hcmds]; rfl),
                ih s acc plan hplan hagree, List.all_cons, hok, Bool.true_and]
          | cons c0 cs0 =>
              have hspec := runRollbackCommands_spec env task.rollbackCommands task
              have hok : rollbackOkAt env plan0 i
                  = (task.rollbackCommands.all fun c => rollbackCmdOk (env c)) := by
                exact rollbackOkAt_of_cmds env plan0 i task.rollbackCommands
                  (by rw [← hagree i, rollbackCmdsAt, ht]; rfl)
              have hres2 : (runRollbackCommands env task task.rollbackCommands).2
                  = (task.rollbackCommands.all fun c => rollbackCmdOk (env c)) := by
                rw [hspec]
              have hrbpres : ((if (runRollbackCommands env task task.rollbackCommands).2 = true
                    then { (runRollbackCommands env task task.rollbackCommands).1 with
                            status := RecoveryStatus.pending }
                    else (runRollbackCommands env task
                      task.rollbackCommands).1)).rollbackCommands
                  = task.rollbackCommands := by
                split
                · rw [hspec]
                · rw [hspec]
              rw [rollbackLoop_cons_run env st s i rest acc plan task hplan ht
                  (by rw [hcmds]; rfl)]
              rw [ih _ _ _ (alookup_aupdate_self st _ s.recoveryPlans) ?_]
              · rw [List.all_cons, hok, hres2, Bool.and_assoc]
              · intro j
                by_cases hij : i = j
                · subst hij
                  rw [rollbackCmdsAt]
                  rw [taskAt_set_self plan i _ task ht]
                  rw [Option.map_some', hrbpres, ← hagree i, rollbackCmdsAt, ht]
                  rfl
                · rw [rollbackCmdsAt, taskAt_set_ne plan i j _ hij, ← rollbackCmdsAt,
                    hagree j]

/-- C6: rollback_recovery rolls back exactly the tasks whose map status
is COMPLETED (the completed-index characterization), visiting them in a
stable descending order of creation time — a permutation of the
completed set that is antitone in created_at, and strictly descending
(most recently created first) whenever the completed tasks have
pairwise distinct creation times — and its returned flag is True
exactly when every attempted per-task rollback sequence succeeded
(tasks with an empty rollback sequence succeed vacuously). -/
theorem C6_rollback_order_and_result (env : String → CmdOutcome) (s : OrchestratorState)
    (rid : String) (inst : RecoveryInstance) (plan : SystemRecovery)
    (hinst : alookup rid s.activeRecoveries = some inst)
    (hplan : alookup inst.systemType s.recoveryPlans = some plan) :
    rollbackRecovery env s rid
      = rollbackLoop env inst.systemType s (rollbackOrder plan inst) true
  ∧ (∀ i, i ∈ completedTaskIdxs plan inst ↔
        ∃ t, taskAt plan i = some t ∧ mapStatusIsCompleted inst t.id = true)
  ∧ (rollbackOrder plan inst).Perm (completedTaskIdxs plan inst)
  ∧ (rollbackOrder plan inst).Pairwise
      (fun i j => createdAtAt plan j ≤ createdAtAt plan i)
  ∧ ((∀ i ∈ completedTaskIdxs plan inst, ∀ j ∈ completedTaskIdxs plan inst,
        i ≠ j → createdAtAt plan i ≠ createdAtAt plan j) →
      (rollbackOrder plan inst).Pairwise
        (fun i j => createdAtAt plan j < createdAtAt plan i))
  ∧ ((rollbackRecovery env s rid).1
      = (completedTaskIdxs plan inst).all fun i => rollbackOkAt env plan i) := by
  have hperm : (rollbackOrder plan inst).Perm (completedTaskIdxs plan inst) :=
    stableSort_perm _ (completedTaskIdxs plan inst)
  have hpair : (rollbackOrder plan inst).Pairwise
      (fun i j => (decide (createdAtAt plan j ≤ createdAtAt plan i)) = true) := by
    apply stableSort_pairwise
    · intro a b c hab hbc
      simp only [decide_eq_true_eq] at hab hbc ⊢
      exact le_trans hbc hab
    · intro a b
      simp only [decide_eq_true_eq]
      exact Nat.le_total (createdAtAt plan b) (createdAtAt plan a)
  refine ⟨?_, ?_, hperm, ?_, ?_, ?_⟩
  · simp only [rollbackRecovery, hinst, hplan]
  · intro i
    constructor
    · intro hmem
      rw [completedTaskIdxs, List.mem_filter] at hmem
      obtain ⟨hrange, hpred⟩ := hmem
      cases ht : taskAt plan i with
      | none => rw [ht] at hpred; simp at hpred
      | some t =>
          rw [ht] at hpred
          exact ⟨t, rfl, hpred⟩
    · intro hex
      obtain ⟨t, ht, hcomp⟩ := hex
      rw [completedTaskIdxs, List.mem_filter]
      have hi : i < plan.recoveryTasks.length := by
        rw [taskAt, List.get?_eq_getElem?] at ht
        exact (List.getElem?_eq_some_iff.mp ht).1
      refine ⟨List.mem_range.mpr hi, ?_⟩
      rw [ht]
      exact hcomp
  · exact hpair.imp fun h => by simpa using h
  · intro hdist
    have hnodup : (rollbackOrder plan inst).Nodup := by
      refine hperm.symm.nodup ?_
      exact (List.nodup_range plan.recoveryTasks.length).filter _
    have hcomb := hpair.and hnodup
    refine hcomb.imp_of_mem ?_
    intro a b ha hb hab
    obtain ⟨hle, hne⟩ := hab
    simp only [decide_eq_true_eq] at hle
    have hma : a ∈ completedTaskIdxs plan inst := hperm.mem_iff.mp ha
    have hmb : b ∈ completedTaskIdxs plan inst := hperm.mem_iff.mp hb
    have := hdist a hma b hmb hne
    omega
  · have h1 : rollbackRecovery env s rid
        = rollbackLoop env inst.systemType s (rollbackOrder plan inst) true := by
      simp only [rollbackRecovery, hinst, hplan]
    rw [h1, rollbackLoop_result env inst.systemType plan (rollbackOrder plan inst) s true
      plan hplan (fun j => rfl), Bool.true_and]
    exact perm_all_eq hperm _

/-- Witness for C6_rollback_order_and_result at the rollback fixture
(two completed tasks with distinct creation times). -/
theorem C6_rollback_order_and_result_witness :
    alookup "R7" stateRB.activeRecoveries = some instRB
  ∧ alookup instRB.systemType stateRB.recoveryPlans = some fixPlanRB
  ∧ (rollbackRecovery envU1Fails stateRB "R7"
      = rollbackLoop envU1Fails instRB.systemType stateRB
          (rollbackOrder fixPlanRB instRB) true
  ∧ (∀ i, i ∈ completedTaskIdxs fixPlanRB instRB ↔
        ∃ t, taskAt fixPlanRB i = some t ∧ mapStatusIsCompleted instRB t.id = true)
  ∧ (rollbackOrder fixPlanRB instRB).Perm (completedTaskIdxs fixPlanRB instRB)
  ∧ (rollbackOrder fixPlanRB instRB).Pairwise
      (fun i j => createdAtAt fixPlanRB j ≤ createdAtAt fixPlanRB i)
  ∧ ((∀ i ∈ completedTaskIdxs fixPlanRB instRB, ∀ j ∈ completedTaskIdxs fixPlanRB instRB,
        i ≠ j → createdAtAt fixPlanRB i ≠ createdAtAt fixPlanRB j) →
      (rollbackOrder fixPlanRB instRB).Pairwise
        (fun i j => createdAtAt fixPlanRB j < createdAtAt fixPlanRB i))
  ∧ ((rollbackRecovery envU1Fails stateRB "R7").1
      = (completedTaskIdxs fixPlanRB instRB).all
          fun i => rollbackOkAt envU1Fails fixPlanRB i)) :=
  ⟨by decide, by decide,
    C6_rollback_order_and_result envU1Fails stateRB "R7" instRB fixPlanRB
      (by decide) (by decide)⟩

end RecoveryOrch
